import Mathlib

/-!
Verification of the reconciliation engine in `pontoon/sync/tasks.py`.

The Python source is shallowly embedded: Django model rows become plain
structures, the database becomes an explicit `DB` record of row lists, and the
two Celery tasks `sync_project` and `sync_project_repo` become pure functions
from an explicit `SyncState` to a new `SyncState` paired with an
`Except SyncError Unit` result (a raised exception becomes `Except.error`).

External collaborators that the tasks call but that are defined outside the
source fragment (`pull_changes`, `sync_project` of `pontoon.sync.core` —
called `perform_sync_project` in the source —, `update_translations`,
`update_project_stats`, `commit_changes`, and the `ChangeSet` internals) are
taken as parameters in a `Collaborators` record, so every theorem below holds
for every behaviour of those collaborators unless it explicitly constrains
them.  The version-controlled working tree is opaque: it is modelled as a
single `Nat` token that only the pull and commit collaborators may replace.

`transaction.atomic()` around the per-locale block is modelled by computing the
candidate database of a locale iteration functionally and adopting it only
when the iteration returns `Except.ok`; on `Except.error` the pre-transaction
database is kept, which is exactly rollback.  `timezone.now()` is modelled by
an integer clock in `SyncState` that is incremented at each call.
-/

namespace Pontoon

/-- A locale row: the unit of transactional work inside a repository. -/
structure Locale where
  id : Nat
  code : String
  deriving Repr, DecidableEq

/-- A repository row: belongs to a project (`project_id`) and covers a list of
locales (`Repository.locales` in the source). -/
structure Repository where
  pk : Nat
  project_id : Nat
  url : String
  locales : List Locale
  deriving Repr, DecidableEq

/-- A project row.  `has_changed` is the persistent dirty flag the worker
clears at line 132 of the source. -/
structure Project where
  id : Nat
  slug : String
  has_changed : Bool
  deriving Repr, DecidableEq

/-- A resource row (`base_resource`): links entities to their project. -/
structure Resource where
  id : Nat
  project_id : Nat
  deriving Repr, DecidableEq

/-- An entity row (`base_entity`): links translations to a resource. -/
structure Entity where
  id : Nat
  resource_id : Nat
  deriving Repr, DecidableEq

/-- A translation row (`base_translation`) with the columns the engine reads
or writes: entity, locale, optional plural form, approval flag and optional
approval timestamp (`NULL` becomes `none`). -/
structure Translation where
  id : Nat
  entity_id : Nat
  locale_id : Nat
  plural_form : Option Int
  approved : Bool
  approved_date : Option Int
  deriving Repr, DecidableEq

/-- A dirty marker row (`ChangedEntityLocale`): a database-side edit for an
entity and locale recorded at time `when`. -/
structure ChangedEntityLocale where
  entity_id : Nat
  locale_id : Nat
  when : Int
  deriving Repr, DecidableEq

/-- A `SyncLog` row: the identity of one top-level reconciliation run. -/
structure SyncLog where
  pk : Nat
  deriving Repr, DecidableEq

/-- A `ProjectSyncLog` row with its two terminal fields. -/
structure ProjectSyncLog where
  pk : Nat
  sync_log : Nat
  project : Nat
  start_time : Int
  skipped : Bool
  skipped_end_time : Option Int
  deriving Repr, DecidableEq

/-- A `RepositorySyncLog` row; `end_time = none` is the observable signal of
an incomplete repository run. -/
structure RepositorySyncLog where
  pk : Nat
  project_sync_log : Nat
  repository : Nat
  start_time : Int
  end_time : Option Int
  deriving Repr, DecidableEq

/-- The relational store: one list of rows per table, plus a primary-key
sequence `next_pk` used by row creation. -/
structure DB where
  projects : List Project
  repositories : List Repository
  syncLogs : List SyncLog
  resources : List Resource
  entities : List Entity
  translations : List Translation
  changedEntityLocales : List ChangedEntityLocale
  projectSyncLogs : List ProjectSyncLog
  repositorySyncLogs : List RepositorySyncLog
  next_pk : Nat
  deriving Repr, DecidableEq

/-- One `sync_project_repo.delay(...)` dispatch (line 74): the arguments the
coordinator enqueues for a repository sync worker. -/
structure DispatchedTask where
  project_pk : Nat
  repo_pk : Nat
  project_sync_log_pk : Nat
  now : Int
  no_pull : Bool
  no_commit : Bool
  deriving Repr, DecidableEq

/-- A collaborator call the coordinator performs (used to state that the skip
path performs no project-wide merge, for example). -/
inductive CallEvent where
  | pull
  | projectMerge
  deriving Repr, DecidableEq

/-- The full observable state a task invocation acts on: the database, the
opaque working-tree token, the clock behind `timezone.now()`, the log lines
emitted so far, the coordinator-level collaborator calls performed, and the
worker invocations dispatched so far. -/
structure SyncState where
  db : DB
  wt : Nat
  clock : Int
  logs : List String
  calls : List CallEvent
  dispatched : List DispatchedTask

/-- The exceptions distinguished by the source: `CommitToRepositoryException`
(caught per locale), `DoesNotExist` (raised by `get_or_fail`), and every other
exception type (not caught by this code). -/
inductive SyncError where
  | commitToRepository (msg : String)
  | doesNotExist (msg : String)
  | other (msg : String)
  deriving Repr, DecidableEq

/-- The `ChangeSet` of lines 119-121 as the engine observes it: the database
effect of `changeset.execute()` (fallible, runs inside the transaction) and
the ids of the locales in `changeset.locales_to_commit`. -/
structure ChangeSet where
  execute : DB → Except SyncError DB
  locales_to_commit : List Nat

/-- The `VCSProject(db_project, locales=repo.locales)` value of line 115. -/
structure VCSProject where
  project : Project
  locales : List Locale

/-- The external collaborators imported from `pontoon.sync.core` and
`pontoon.administration.vcs`, as behaviour parameters.  `pull_changes` and
`commit_changes` act on the opaque working-tree token and never on the
database; `update_translations` returns the `ChangeSet` it populated
(merging lines 119-120 of the source into one call). -/
structure Collaborators where
  pull_changes : Project → Nat → Nat × Bool
  perform_sync_project : Project → Int → DB → DB
  update_translations : Project → VCSProject → Locale → Int → DB →
    Except SyncError (DB × ChangeSet)
  update_project_stats : Project → VCSProject → ChangeSet → Locale → DB →
    Except SyncError DB
  commit_changes : Project → VCSProject → ChangeSet → Locale → Nat →
    Except SyncError Nat

/-- `Project.objects.get(pk=...)` — the row lookup behind `get_or_fail`. -/
def findProject (db : DB) (pk : Nat) : Option Project :=
  db.projects.find? (fun p => p.id == pk)

/-- `SyncLog.objects.get(pk=...)`. -/
def findSyncLog (db : DB) (pk : Nat) : Option SyncLog :=
  db.syncLogs.find? (fun s => s.pk == pk)

/-- `Repository.objects.get(pk=...)`. -/
def findRepository (db : DB) (pk : Nat) : Option Repository :=
  db.repositories.find? (fun r => r.pk == pk)

/-- `ProjectSyncLog.objects.get(pk=...)`. -/
def findProjectSyncLog (db : DB) (pk : Nat) : Option ProjectSyncLog :=
  db.projectSyncLogs.find? (fun r => r.pk == pk)

/-- The `entity__resource__project` join: the project a given entity belongs
to, if the entity and its resource exist. -/
def entityProjectId (db : DB) (entity_id : Nat) : Option Nat :=
  match db.entities.find? (fun e => e.id == entity_id) with
  | none => none
  | some e =>
    match db.resources.find? (fun r => r.id == e.resource_id) with
    | none => none
    | some r => some r.project_id

/-- `db_project.repositories.all()` — the repositories related to a project. -/
def projectRepositories (db : DB) (project_id : Nat) : List Repository :=
  db.repositories.filter (fun r => r.project_id == project_id)

/-- Modelled from the spec: `Project.needs_sync`, the project dirty flag read
by the coordinator skip rule, is defined outside this source fragment.  Per
the spec it is true when the project has pending database-side edits: its
mutable dirty flag (`has_changed`) is set, or dirty markers for the project
exist (the idempotency fixture demands both "no dirty markers" and a false
flag for a skip). -/
def needs_sync (db : DB) (p : Project) : Bool :=
  p.has_changed ||
    db.changedEntityLocales.any (fun m => entityProjectId db m.entity_id == some p.id)

/-- `ProjectSyncLog.objects.create(...)` of lines 50-54: appends the record,
open and not skipped, and bumps the primary-key sequence. -/
def createProjectSyncLog (db : DB) (sync_log_pk project_id : Nat) (start : Int) : DB :=
  { db with
    projectSyncLogs := db.projectSyncLogs ++
      [{ pk := db.next_pk, sync_log := sync_log_pk, project := project_id,
         start_time := start, skipped := false, skipped_end_time := none }],
    next_pk := db.next_pk + 1 }

/-- Lines 66-68: `project_sync_log.save(update_fields=('skipped',
'skipped_end_time'))` after setting the two skip fields. -/
def markPSLSkipped (db : DB) (pk : Nat) (t : Int) : DB :=
  { db with
    projectSyncLogs := db.projectSyncLogs.map (fun r =>
      if r.pk == pk then { r with skipped := true, skipped_end_time := some t } else r) }

/-- `RepositorySyncLog.objects.create(...)` of lines 97-101: the record starts
with no end time. -/
def createRepositorySyncLog (db : DB) (project_sync_log_pk repo_pk : Nat)
    (start : Int) : DB :=
  { db with
    repositorySyncLogs := db.repositorySyncLogs ++
      [{ pk := db.next_pk, project_sync_log := project_sync_log_pk,
         repository := repo_pk, start_time := start, end_time := none }],
    next_pk := db.next_pk + 1 }

/-- `repo_sync_log.end_time = timezone.now(); repo_sync_log.save(...)`
(lines 111-112 and 174-175). -/
def setRSLEndTime (db : DB) (pk : Nat) (t : Int) : DB :=
  { db with
    repositorySyncLogs := db.repositorySyncLogs.map (fun r =>
      if r.pk == pk then { r with end_time := some t } else r) }

/-- Lines 127-131: delete every `ChangedEntityLocale` of this project and
locale with `when <= now` (`when__lte=now`). -/
def deleteChangedEntityLocales (db : DB) (project_id locale_id : Nat) (now : Int) : DB :=
  { db with
    changedEntityLocales := db.changedEntityLocales.filter (fun m =>
      !(entityProjectId db m.entity_id == some project_id &&
        m.locale_id == locale_id && decide (m.when ≤ now))) }

/-- Lines 132-133: `db_project.has_changed = False;
db_project.save(update_fields=['has_changed'])`. -/
def clearHasChanged (db : DB) (project_id : Nat) : DB :=
  { db with
    projects := db.projects.map (fun p =>
      if p.id == project_id then { p with has_changed := false } else p) }

/-- Largest element of a list of timestamps, `none` on the empty list — the
semantics of SQL `max(approved_date)`, which ignores `NULL` values (the
`NULL` dates are removed by `filterMap` before this is applied). -/
def optMax : List Int → Option Int
  | [] => none
  | d :: ds =>
    match optMax ds with
    | none => some d
    | some m => some (max d m)

/-- SQL `<>` on nullable values: unknown (hence not selected) whenever either
side is `NULL`. -/
def sqlNe : Option Int → Option Int → Bool
  | some x, some y => x != y
  | _, _ => false

/-- The correlated grouping condition of the cleanup statement, line 153:
`(plural_form = b.plural_form OR plural_form IS NULL)` under SQL three-valued
equality — the inner row `t` is grouped with `b` when both plural forms are
non-`NULL` and equal, or when `t`'s plural form is `NULL`. -/
def sqlGroupPred (b t : Translation) : Bool :=
  (match t.plural_form, b.plural_form with
   | some x, some y => x == y
   | _, _ => false) || t.plural_form == none

/-- The subquery of lines 149-153: `max(approved_date)` over the rows with
`b`'s entity and locale satisfying `sqlGroupPred`. -/
def sqlGroupMax (ts : List Translation) (b : Translation) : Option Int :=
  optMax ((ts.filter (fun t =>
    t.entity_id == b.entity_id && t.locale_id == b.locale_id && sqlGroupPred b t)).filterMap
    (fun t => t.approved_date))

/-- The scope filter of lines 143-147 (inner `SELECT` with the
`entity -> resource -> project` join): the row belongs to the given locale and
its entity resolves to the given project. -/
def translationScope (db : DB) (project_id locale_id : Nat) (t : Translation) : Bool :=
  t.locale_id == locale_id && entityProjectId db t.entity_id == some project_id

/-- The per-row effect of the `UPDATE` of lines 138-157: a row in scope whose
non-`NULL` `approved_date` differs from the non-`NULL` group maximum is
demoted (`approved = FALSE, approved_date = NULL`); every other row is kept.
All subqueries read the pre-update snapshot `db`. -/
def cleanup_row (db : DB) (project_id locale_id : Nat) (b : Translation) : Translation :=
  if translationScope db project_id locale_id b &&
      sqlNe b.approved_date (sqlGroupMax db.translations b) then
    { b with approved := false, approved_date := none }
  else b

/-- The duplicate-approval cleanup statement of lines 137-157, applied to the
whole translation table against the pre-update snapshot. -/
def duplicate_approval_cleanup (db : DB) (project_id locale_id : Nat) : DB :=
  { db with translations := db.translations.map (cleanup_row db project_id locale_id) }

/-- Log line of line 39. -/
def projectNotFoundMsg (pk : Nat) : String :=
  "Could not sync project with pk=" ++ toString pk ++ ", not found."

/-- Log line of lines 41-42 (and 94-95, which use the same format). -/
def syncLogNotFoundMsg (slug : String) (pk : Nat) : String :=
  "Could not sync project " ++ slug ++ ", log with pk=" ++ toString pk ++ " not found."

/-- Log line of line 92 — note the source formats the repository message with
`project_pk`, not `repo_pk`. -/
def repoNotFoundMsg (project_pk : Nat) : String :=
  "Could not sync repo with pk=" ++ toString project_pk ++ ", not found."

/-- Log line of line 44. -/
def syncingMsg (slug : String) : String :=
  "Syncing project " ++ slug ++ "."

/-- Log line of line 64. -/
def skippingMsg (slug : String) : String :=
  "Skipping project " ++ slug ++ ", no changes detected."

/-- Log line of line 83. -/
def syncedResourcesMsg (slug : String) : String :=
  "Synced resources for project " ++ slug ++ "."

/-- Log line of lines 109-110. -/
def noLocalesMsg (url : String) : String :=
  "Could not sync repo `" ++ url ++ "`, no locales found within."

/-- Log line of lines 165-172. -/
def commitFailWarnMsg (locale_code slug err : String) : String :=
  "Failed to sync locale " ++ locale_code ++ " for project " ++ slug ++
    " due to commit error: " ++ err

/-- Log line of lines 176-178. -/
def syncedTranslationsMsg (slug codes : String) : String :=
  "Synced translations for project " ++ slug ++ " in locales " ++ codes ++ "."

/-- `','.join(locale.code for locale in repo.locales)` of line 177. -/
def joinLocaleCodes (locales : List Locale) : String :=
  String.intercalate "," (locales.map (fun l => l.code))

/-- One per-locale transaction body, lines 118-162: merge step, changeset
commit, statistics, dirty-marker deletion, dirty-flag clear, duplicate-approval
cleanup, and last the version-control write-back.  The returned database is
the candidate the surrounding `transaction.atomic()` commits; any
`Except.error` is a raised exception that aborts (rolls back) the whole
candidate. -/
def locale_iteration (c : Collaborators) (db_project : Project)
    (vcs_project : VCSProject) (now : Int) (no_commit : Bool) (locale : Locale)
    (db : DB) (wt : Nat) : Except SyncError (DB × Nat) :=
  match c.update_translations db_project vcs_project locale now db with
  | Except.error e => Except.error e
  | Except.ok (db1, changeset) =>
    match changeset.execute db1 with
    | Except.error e => Except.error e
    | Except.ok db2 =>
      match c.update_project_stats db_project vcs_project changeset locale db2 with
      | Except.error e => Except.error e
      | Except.ok db3 =>
        if !no_commit && changeset.locales_to_commit.contains locale.id then
          match c.commit_changes db_project vcs_project changeset locale wt with
          | Except.error e => Except.error e
          | Except.ok wt2 =>
            Except.ok
              (duplicate_approval_cleanup
                (clearHasChanged
                  (deleteChangedEntityLocales db3 db_project.id locale.id now)
                  db_project.id)
                db_project.id locale.id, wt2)
        else
          Except.ok
            (duplicate_approval_cleanup
              (clearHasChanged
                (deleteChangedEntityLocales db3 db_project.id locale.id now)
                db_project.id)
              db_project.id locale.id, wt)

/-- The `for locale in repo.locales` loop of lines 116-172: each locale runs in
its own transaction; a `CommitToRepositoryException` is caught, logged and the
loop moves on with the pre-transaction database and working tree; any other
exception propagates immediately. -/
def sync_repo_locales (c : Collaborators) (db_project : Project)
    (vcs_project : VCSProject) (now : Int) (no_commit : Bool) :
    List Locale → DB → Nat → List String →
    DB × Nat × List String × Except SyncError Unit
  | [], db, wt, warns => (db, wt, warns, Except.ok ())
  | locale :: rest, db, wt, warns =>
    match locale_iteration c db_project vcs_project now no_commit locale db wt with
    | Except.ok (db2, wt2) =>
      sync_repo_locales c db_project vcs_project now no_commit rest db2 wt2 warns
    | Except.error (SyncError.commitToRepository msg) =>
      sync_repo_locales c db_project vcs_project now no_commit rest db wt
        (warns ++ [commitFailWarnMsg locale.code db_project.slug msg])
    | Except.error e => (db, wt, warns, Except.error e)

/-- Lines 174-178 (or early propagation): on a completed loop the repository
run record gets its end time and the summary line is logged; on a propagated
exception neither happens and the record stays open. -/
def finish_repo_sync (st : SyncState) (repo_sync_log_pk : Nat) (clock1 : Int)
    (calls1 : List CallEvent) (slug codes : String)
    (r : DB × Nat × List String × Except SyncError Unit) :
    SyncState × Except SyncError Unit :=
  match r with
  | (db_f, wt_f, warns, Except.ok _) =>
    ({ st with
        db := setRSLEndTime db_f repo_sync_log_pk clock1, wt := wt_f,
        clock := clock1 + 1,
        logs := st.logs ++ warns ++ [syncedTranslationsMsg slug codes],
        calls := calls1 }, Except.ok ())
  | (db_f, wt_f, warns, Except.error e) =>
    ({ st with
        db := db_f, wt := wt_f, clock := clock1,
        logs := st.logs ++ warns, calls := calls1 }, Except.error e)

/-- The repository sync worker `sync_project_repo` of lines 86-178. -/
def sync_project_repo (c : Collaborators) (st : SyncState)
    (project_pk repo_pk project_sync_log_pk : Nat) (now : Int)
    (no_pull no_commit : Bool) : SyncState × Except SyncError Unit :=
  match findProject st.db project_pk with
  | none =>
    ({ st with logs := st.logs ++ [projectNotFoundMsg project_pk] },
     Except.error (SyncError.doesNotExist (projectNotFoundMsg project_pk)))
  | some db_project =>
    match findRepository st.db repo_pk with
    | none =>
      ({ st with logs := st.logs ++ [repoNotFoundMsg project_pk] },
       Except.error (SyncError.doesNotExist (repoNotFoundMsg project_pk)))
    | some repo =>
      match findProjectSyncLog st.db project_sync_log_pk with
      | none =>
        ({ st with logs := st.logs ++ [syncLogNotFoundMsg db_project.slug project_sync_log_pk] },
         Except.error (SyncError.doesNotExist
           (syncLogNotFoundMsg db_project.slug project_sync_log_pk)))
      | some project_sync_log =>
        let repo_sync_log_pk := st.db.next_pk
        let db_a := createRepositorySyncLog st.db project_sync_log.pk repo.pk st.clock
        let clock1 := st.clock + 1
        let wt_b := if no_pull then st.wt else (c.pull_changes db_project st.wt).1
        let calls1 := if no_pull then st.calls else st.calls ++ [CallEvent.pull]
        if repo.locales.length < 1 then
          ({ st with
              db := setRSLEndTime db_a repo_sync_log_pk clock1, wt := wt_b,
              clock := clock1 + 1, logs := st.logs ++ [noLocalesMsg repo.url],
              calls := calls1 }, Except.ok ())
        else
          finish_repo_sync st repo_sync_log_pk clock1 calls1 db_project.slug
            (joinLocaleCodes repo.locales)
            (sync_repo_locales c db_project
              { project := db_project, locales := repo.locales } now no_commit
              repo.locales db_a wt_b [])

/-- The project sync coordinator `sync_project` of lines 35-83. -/
def sync_project (c : Collaborators) (st : SyncState)
    (project_pk sync_log_pk : Nat) (no_pull no_commit force : Bool) :
    SyncState × Except SyncError Unit :=
  match findProject st.db project_pk with
  | none =>
    ({ st with logs := st.logs ++ [projectNotFoundMsg project_pk] },
     Except.error (SyncError.doesNotExist (projectNotFoundMsg project_pk)))
  | some db_project =>
    match findSyncLog st.db sync_log_pk with
    | none =>
      ({ st with logs := st.logs ++ [syncLogNotFoundMsg db_project.slug sync_log_pk] },
       Except.error (SyncError.doesNotExist (syncLogNotFoundMsg db_project.slug sync_log_pk)))
    | some _sync_log =>
      let logs0 := st.logs ++ [syncingMsg db_project.slug]
      let now := st.clock
      let clock1 := st.clock + 1
      let psl_pk := st.db.next_pk
      let db1 := createProjectSyncLog st.db sync_log_pk db_project.id now
      let wt1 := if no_pull then st.wt else (c.pull_changes db_project st.wt).1
      let repos_changed := if no_pull then true else (c.pull_changes db_project st.wt).2
      let calls1 := if no_pull then st.calls else st.calls ++ [CallEvent.pull]
      if !force && !repos_changed && !(needs_sync db1 db_project) then
        ({ st with
            db := markPSLSkipped db1 psl_pk clock1, wt := wt1,
            clock := clock1 + 1, logs := logs0 ++ [skippingMsg db_project.slug],
            calls := calls1 }, Except.ok ())
      else
        let db2 := c.perform_sync_project db_project now db1
        ({ st with
            db := db2, wt := wt1, clock := clock1,
            logs := logs0 ++ [syncedResourcesMsg db_project.slug],
            calls := calls1 ++ [CallEvent.projectMerge],
            dispatched := st.dispatched ++
              (projectRepositories db2 db_project.id).map (fun repo =>
                { project_pk := project_pk, repo_pk := repo.pk,
                  project_sync_log_pk := psl_pk, now := now,
                  no_pull := no_pull, no_commit := no_commit }) },
         Except.ok ())

/-- The spec's grouping for the duplicate-approval invariant: two translations
are in the same group when they share the entity and the plural form, with
absent plural forms grouped together. -/
def sameClaimGroup (t1 t2 : Translation) : Bool :=
  t1.entity_id == t2.entity_id && t1.plural_form == t2.plural_form

/-- The spec's group maximum: the largest approval timestamp among the
translations of the given project and locale in `b`'s group. -/
def claimGroupMax (db : DB) (project_id locale_id : Nat) (b : Translation) : Option Int :=
  optMax ((db.translations.filter (fun t =>
    translationScope db project_id locale_id t && sameClaimGroup t b)).filterMap
    (fun t => t.approved_date))

/-- The claim's "at most one Translation in the group is marked approved":
true iff no two distinct rows of the given project and locale in the same
group are both approved. -/
def claim_at_most_one_approved (db : DB) (project_id locale_id : Nat) : Bool :=
  db.translations.all (fun t1 => db.translations.all (fun t2 =>
    !(translationScope db project_id locale_id t1 &&
      translationScope db project_id locale_id t2 &&
      sameClaimGroup t1 t2 && t1.approved && t2.approved && t1.id != t2.id)))

/-- The state after the coordinator's skip path (lines 63-70), starting from
`st`, when the pull step changed nothing: the run record is created and then
marked skipped with a skip end time, two log lines are emitted, one pull call
happens, and nothing else changes. -/
def skip_outcome (st : SyncState) (sync_log_pk : Nat) (p : Project) : SyncState :=
  { st with
      db := markPSLSkipped (createProjectSyncLog st.db sync_log_pk p.id st.clock)
        st.db.next_pk (st.clock + 1),
      clock := st.clock + 1 + 1,
      logs := (st.logs ++ [syncingMsg p.slug]) ++ [skippingMsg p.slug],
      calls := st.calls ++ [CallEvent.pull] }

/-! Concrete fixtures used by the witnesses and counterexamples below. -/

/-- Fixture locale with id 1. -/
def exLocaleA : Locale := { id := 1, code := "de" }

/-- Fixture locale with id 2. -/
def exLocaleB : Locale := { id := 2, code := "fr" }

/-- Fixture project with a clear dirty flag. -/
def exProject : Project := { id := 1, slug := "firefox", has_changed := false }

/-- Fixture project with the dirty flag set. -/
def exProjectDirty : Project := { id := 1, slug := "firefox", has_changed := true }

/-- Fixture resource of the fixture project. -/
def exResource : Resource := { id := 1, project_id := 1 }

/-- Fixture entity of the fixture resource. -/
def exEntity : Entity := { id := 1, resource_id := 1 }

/-- Fixture repository covering both fixture locales. -/
def exRepo : Repository :=
  { pk := 2, project_id := 1, url := "https://vcs/repo", locales := [exLocaleA, exLocaleB] }

/-- Fixture repository covering only locale 1. -/
def exRepoA : Repository :=
  { pk := 2, project_id := 1, url := "https://vcs/repo", locales := [exLocaleA] }

/-- Fixture top-level run record. -/
def exSyncLog : SyncLog := { pk := 5 }

/-- Fixture project run record (parent of the worker invocations). -/
def exPSL : ProjectSyncLog :=
  { pk := 3, sync_log := 5, project := 1, start_time := 0, skipped := false,
    skipped_end_time := none }

/-- Two approved translations of the same entity, locale and plural form with
equal approval timestamps: a tie on the group maximum. -/
def exT1 : Translation :=
  { id := 1, entity_id := 1, locale_id := 1, plural_form := some 0,
    approved := true, approved_date := some 5 }

/-- See `exT1`. -/
def exT2 : Translation :=
  { id := 2, entity_id := 1, locale_id := 1, plural_form := some 0,
    approved := true, approved_date := some 5 }

/-- A dirty marker for locale 2 timestamped before the reference time 100. -/
def exMarkerB : ChangedEntityLocale := { entity_id := 1, locale_id := 2, when := 50 }

/-- A dirty marker for locale 1 timestamped before the reference time 100. -/
def exMarkerA : ChangedEntityLocale := { entity_id := 1, locale_id := 1, when := 50 }

/-- A dirty marker for locale 1 timestamped after the reference time 100. -/
def exMarkerLate : ChangedEntityLocale := { entity_id := 1, locale_id := 1, when := 150 }

/-- Fixture database with the approval tie of `exT1`/`exT2`. -/
def exDB_tie : DB :=
  { projects := [exProject], repositories := [exRepoA], syncLogs := [exSyncLog],
    resources := [exResource], entities := [exEntity],
    translations := [exT1, exT2], changedEntityLocales := [],
    projectSyncLogs := [exPSL], repositorySyncLogs := [], next_pk := 10 }

/-- Fixture database with a dirty project and a pending marker for locale 2,
while the repository only covers locale 1. -/
def exDB_marker : DB :=
  { projects := [exProjectDirty], repositories := [exRepoA], syncLogs := [exSyncLog],
    resources := [exResource], entities := [exEntity],
    translations := [], changedEntityLocales := [exMarkerB],
    projectSyncLogs := [exPSL], repositorySyncLogs := [], next_pk := 10 }

/-- Fixture database with two locales configured and markers for locale 1 on
both sides of the reference time. -/
def exDB_two : DB :=
  { projects := [exProjectDirty], repositories := [exRepo], syncLogs := [exSyncLog],
    resources := [exResource], entities := [exEntity],
    translations := [exT1, exT2], changedEntityLocales := [exMarkerA, exMarkerLate],
    projectSyncLogs := [exPSL], repositorySyncLogs := [], next_pk := 10 }

/-- Fixture clean database (no pending work at all). -/
def exDB_clean : DB :=
  { projects := [exProject], repositories := [exRepo], syncLogs := [exSyncLog],
    resources := [exResource], entities := [exEntity],
    translations := [exT1], changedEntityLocales := [],
    projectSyncLogs := [], repositorySyncLogs := [], next_pk := 10 }

/-- Initial fixture state around a database. -/
def exState (db : DB) : SyncState :=
  { db := db, wt := 0, clock := 100, logs := [], calls := [], dispatched := [] }

/-- A changeset that edits nothing and destines no locale for write-back. -/
def trivialChangeSet : ChangeSet :=
  { execute := fun db => Except.ok db, locales_to_commit := [] }

/-- A changeset that edits nothing but destines locales 1 and 2 for
write-back. -/
def commitChangeSet : ChangeSet :=
  { execute := fun db => Except.ok db, locales_to_commit := [1, 2] }

/-- Collaborators that change nothing: the pull reports no changes, the merge
and statistics steps leave the database as they found it, and the write-back
succeeds without touching the working tree. -/
def cTrivial : Collaborators :=
  { pull_changes := fun _ w => (w, false),
    perform_sync_project := fun _ _ db => db,
    update_translations := fun _ _ _ _ db => Except.ok (db, trivialChangeSet),
    update_project_stats := fun _ _ _ _ db => Except.ok db,
    commit_changes := fun _ _ _ _ w => Except.ok w }

/-- Like `cTrivial`, but the pull reports changes, so the coordinator cannot
take the skip path. -/
def cChangedPull : Collaborators :=
  { cTrivial with
      pull_changes := fun _ w => (w, true) }

/-- Like `cTrivial`, but every locale is destined for write-back and the
write-back raises `CommitToRepositoryException` for locale 1 only. -/
def cCommitFailA : Collaborators :=
  { cTrivial with
      update_translations := fun _ _ _ _ db => Except.ok (db, commitChangeSet),
      commit_changes := fun _ _ _ l w =>
        if l.id == 1 then Except.error (SyncError.commitToRepository "push failed")
        else Except.ok w }

/-- Like `cTrivial`, but the statistics step raises an unclassified error for
locale 1. -/
def cStatsBoom : Collaborators :=
  { cTrivial with
      update_project_stats := fun _ _ _ l db =>
        if l.id == 1 then Except.error (SyncError.other "boom")
        else Except.ok db }

/-! Helper lemmas. -/

/-- The maximum of a timestamp list is one of its elements. -/
theorem optMax_mem {l : List Int} : ∀ {m : Int}, optMax l = some m → m ∈ l := by
  induction l with
  | nil => intro m h; simp [optMax] at h
  | cons d ds ih =>
    intro m h
    rw [optMax] at h
    cases hds : optMax ds with
    | none =>
      rw [hds] at h
      injection h with h
      subst h
      exact List.mem_cons_self d ds
    | some m2 =>
      rw [hds] at h
      injection h with h
      subst h
      rcases max_choice d m2 with hc | hc <;> rw [hc]
      · exact List.mem_cons_self d ds
      · exact List.mem_cons_of_mem d (ih hds)

/-- Every element of a timestamp list is bounded by its maximum. -/
theorem le_optMax {l : List Int} {a : Int} (h : a ∈ l) :
    ∃ m, optMax l = some m ∧ a ≤ m := by
  induction l with
  | nil => cases h
  | cons d ds ih =>
    rcases List.mem_cons.mp h with rfl | hmem
    · cases hds : optMax ds with
      | none => exact ⟨a, by rw [optMax, hds], le_refl a⟩
      | some m2 => exact ⟨max a m2, by rw [optMax, hds], le_max_left a m2⟩
    · rcases ih hmem with ⟨m2, hm2, ham⟩
      exact ⟨max d m2, by rw [optMax, hm2], le_trans ham (le_max_right d m2)⟩

/-- Monotonicity of the maximum under list inclusion. -/
theorem optMax_subset_le {l1 l2 : List Int} (hsub : ∀ a, a ∈ l1 → a ∈ l2) {m : Int}
    (h : optMax l1 = some m) : ∃ m2, optMax l2 = some m2 ∧ m ≤ m2 :=
  le_optMax (hsub m (optMax_mem h))

/-- Every row satisfies the SQL grouping condition against itself. -/
theorem sqlGroupPred_self (b : Translation) : sqlGroupPred b b = true := by
  unfold sqlGroupPred
  cases h : b.plural_form <;> simp [h]

/-- A row's own non-`NULL` approval date appears among the dates its group
maximum is taken over. -/
theorem self_date_mem_sqlDates {ts : List Translation} {b : Translation}
    (hb : b ∈ ts) {d : Int} (hd : b.approved_date = some d) :
    d ∈ (ts.filter (fun t =>
      t.entity_id == b.entity_id && t.locale_id == b.locale_id && sqlGroupPred b t)).filterMap
      (fun t => t.approved_date) := by
  apply List.mem_filterMap.mpr
  refine ⟨b, ?_, hd⟩
  apply List.mem_filter.mpr
  exact ⟨hb, by simp [sqlGroupPred_self]⟩

/-- A row that keeps a non-`NULL` approval date across the cleanup was not
demoted, and its date equals its SQL group maximum. -/
theorem cleanup_row_survivor {db : DB} {P L : Nat} {s : Translation}
    (hs : s ∈ db.translations) (hscope : translationScope db P L s = true)
    {d : Int} (hd : (cleanup_row db P L s).approved_date = some d) :
    cleanup_row db P L s = s ∧ s.approved_date = some d ∧
      sqlGroupMax db.translations s = some d := by
  unfold cleanup_row at hd ⊢
  by_cases hc : (translationScope db P L s &&
      sqlNe s.approved_date (sqlGroupMax db.translations s)) = true
  · rw [if_pos hc] at hd
    simp at hd
  · rw [if_neg hc] at hd
    rw [if_neg hc]
    refine ⟨rfl, hd, ?_⟩
    simp only [hscope, Bool.true_and, Bool.not_eq_true] at hc
    rcases le_optMax (self_date_mem_sqlDates hs hd) with ⟨m, hm, hdm⟩
    have hgm : sqlGroupMax db.translations s = some m := by
      unfold sqlGroupMax
      exact hm
    rw [hd, hgm] at hc
    simp only [sqlNe, bne_eq_false_iff_eq] at hc
    rw [hgm, hc]

/-- The cleanup never changes a row's entity, locale or plural form. -/
theorem cleanup_row_fields (db : DB) (P L : Nat) (b : Translation) :
    (cleanup_row db P L b).entity_id = b.entity_id ∧
    (cleanup_row db P L b).locale_id = b.locale_id ∧
    (cleanup_row db P L b).plural_form = b.plural_form := by
  unfold cleanup_row
  split <;> exact ⟨rfl, rfl, rfl⟩

/-- The SQL group maximum only depends on the probe row's entity, locale and
plural form. -/
theorem sqlGroupMax_congr (ts : List Translation) {s1 s2 : Translation}
    (he : s1.entity_id = s2.entity_id) (hl : s1.locale_id = s2.locale_id)
    (hp : s1.plural_form = s2.plural_form) :
    sqlGroupMax ts s1 = sqlGroupMax ts s2 := by
  unfold sqlGroupMax sqlGroupPred
  simp only [he, hl, hp]

/-- Core invariant of the cleanup output: two rows of the cleaned table in the
same project/locale scope and the same spec group that both still carry an
approval timestamp carry the same timestamp. -/
theorem duplicate_approval_cleanup_dated_agree (db : DB) (P L : Nat)
    {t1 t2 : Translation}
    (h1 : t1 ∈ (duplicate_approval_cleanup db P L).translations)
    (h2 : t2 ∈ (duplicate_approval_cleanup db P L).translations)
    (hs1 : translationScope db P L t1 = true)
    (hs2 : translationScope db P L t2 = true)
    (hg : sameClaimGroup t1 t2 = true)
    {d1 d2 : Int} (hd1 : t1.approved_date = some d1)
    (hd2 : t2.approved_date = some d2) : d1 = d2 := by
  rcases List.mem_map.mp h1 with ⟨s1, hm1, he1⟩
  rcases List.mem_map.mp h2 with ⟨s2, hm2, he2⟩
  rcases cleanup_row_fields db P L s1 with ⟨hE1, hL1, hP1⟩
  rcases cleanup_row_fields db P L s2 with ⟨hE2, hL2, hP2⟩
  have hsc1 : translationScope db P L s1 = true := by
    unfold translationScope at hs1 ⊢
    rw [← he1, hE1, hL1] at hs1
    exact hs1
  have hsc2 : translationScope db P L s2 = true := by
    unfold translationScope at hs2 ⊢
    rw [← he2, hE2, hL2] at hs2
    exact hs2
  rcases cleanup_row_survivor hm1 hsc1 (he1 ▸ hd1) with ⟨hid1, _, hmax1⟩
  rcases cleanup_row_survivor hm2 hsc2 (he2 ▸ hd2) with ⟨hid2, _, hmax2⟩
  have ht1 : t1 = s1 := by rw [← he1, hid1]
  have ht2 : t2 = s2 := by rw [← he2, hid2]
  simp only [translationScope, Bool.and_eq_true, beq_iff_eq] at hsc1 hsc2
  simp only [sameClaimGroup, Bool.and_eq_true, beq_iff_eq, ht1, ht2] at hg
  have hcongr : sqlGroupMax db.translations s1 = sqlGroupMax db.translations s2 :=
    sqlGroupMax_congr db.translations hg.1 (hsc1.1.trans hsc2.1.symm) hg.2
  rw [hmax1, hmax2] at hcongr
  injection hcongr

/-- A successful locale iteration produces exactly the database obtained by
running the dirty-marker deletion, the dirty-flag clear and the
duplicate-approval cleanup, in that order, on some intermediate database. -/
theorem locale_iteration_ok_shape {c : Collaborators} {p : Project}
    {vcs : VCSProject} {now : Int} {nc : Bool} {l : Locale} {db : DB} {wt : Nat}
    {db' : DB} {wt' : Nat}
    (h : locale_iteration c p vcs now nc l db wt = Except.ok (db', wt')) :
    ∃ mid, db' =
      duplicate_approval_cleanup
        (clearHasChanged (deleteChangedEntityLocales mid p.id l.id now) p.id)
        p.id l.id := by
  unfold locale_iteration at h
  split at h
  · exact absurd h (by simp)
  next db1 changeset hu =>
    split at h
    · exact absurd h (by simp)
    next db2 hx =>
      split at h
      · exact absurd h (by simp)
      next db3 hs =>
        split at h
        · split at h
          · exact absurd h (by simp)
          next wt2 hcc =>
            injection h with h2
            injection h2 with hdb hwt
            exact ⟨db3, hdb.symm⟩
        · injection h with h2
          injection h2 with hdb hwt
          exact ⟨db3, hdb.symm⟩

/-- The deletion step removes every marker of the project and locale
timestamped at or before `now`. -/
theorem deleteCEL_complete (db : DB) (P L : Nat) (now : Int) :
    ∀ m ∈ (deleteChangedEntityLocales db P L now).changedEntityLocales,
      ¬(entityProjectId db m.entity_id = some P ∧ m.locale_id = L ∧ m.when ≤ now) := by
  intro m hm
  have hp := (List.mem_filter.mp hm).2
  rintro ⟨h1, h2, h3⟩
  simp [h1, h2, h3] at hp

/-- The deletion step keeps every marker timestamped after `now`. -/
theorem deleteCEL_preserves_late (db : DB) (P L : Nat) (now : Int) :
    ∀ m ∈ db.changedEntityLocales, now < m.when →
      m ∈ (deleteChangedEntityLocales db P L now).changedEntityLocales := by
  intro m hm hlate
  apply List.mem_filter.mpr
  refine ⟨hm, ?_⟩
  have hdec : decide (m.when ≤ now) = false := by
    simp only [decide_eq_false_iff_not, not_le]
    exact hlate
  simp [hdec]

/-- After the flag-clear step, every project row with the cleared id has a
false dirty flag. -/
theorem clearHasChanged_projects (db : DB) (P : Nat) :
    ∀ q ∈ (clearHasChanged db P).projects, q.id = P → q.has_changed = false := by
  intro q hq hid
  rcases List.mem_map.mp hq with ⟨p0, hp0, heq⟩
  by_cases h : (p0.id == P) = true
  · rw [if_pos h] at heq
    rw [← heq]
  · rw [if_neg h] at heq
    rw [heq] at h
    exact absurd (by simp [hid]) h

/-- A row is in its own spec group. -/
theorem sameClaimGroup_self (b : Translation) : sameClaimGroup b b = true := by
  simp [sameClaimGroup]

/-- A row with the same plural form as the probe row satisfies the SQL
grouping condition. -/
theorem sqlGroupPred_of_eq {b t : Translation} (h : t.plural_form = b.plural_form) :
    sqlGroupPred b t = true := by
  unfold sqlGroupPred
  cases hb : b.plural_form with
  | none => rw [h, hb]; simp
  | some y => rw [h, hb]; simp

/-- The coordinator's skip path, as one reusable lemma: with `force` unset, a
pull that reports no changes and changes nothing, and a clean dirty flag, the
invocation only creates the run record, marks it skipped, logs two lines and
performs one pull call. -/
theorem sync_project_skip (c : Collaborators) (st : SyncState)
    (project_pk sync_log_pk : Nat) (no_commit : Bool) (p : Project) (sl : SyncLog)
    (hp : findProject st.db project_pk = some p)
    (hsl : findSyncLog st.db sync_log_pk = some sl)
    (hns : needs_sync st.db p = false)
    (hpull : c.pull_changes p st.wt = (st.wt, false)) :
    sync_project c st project_pk sync_log_pk false no_commit false =
      (skip_outcome st sync_log_pk p, Except.ok ()) := by
  have hns2 : needs_sync (createProjectSyncLog st.db sync_log_pk p.id st.clock) p = false := hns
  unfold sync_project skip_outcome
  rw [hp, hsl]
  simp only [Bool.false_eq_true, if_false, hpull, hns2, Bool.not_false, Bool.true_and]
  rfl

/-! Claim theorems. -/

/-- C6: if the project pk or the run (SyncLog) pk does not resolve,
`sync_project` logs the not-found message and fails with a `DoesNotExist`
error, leaving the database, working tree, collaborator-call trace and
dispatch queue untouched — in particular no Project Run Record is created and
no pull is performed. -/
theorem C6_not_found_aborts (c : Collaborators) (st : SyncState)
    (project_pk sync_log_pk : Nat) (no_pull no_commit force : Bool) :
    (findProject st.db project_pk = none →
      sync_project c st project_pk sync_log_pk no_pull no_commit force =
        ({ st with logs := st.logs ++ [projectNotFoundMsg project_pk] },
         Except.error (SyncError.doesNotExist (projectNotFoundMsg project_pk)))) ∧
    (∀ p, findProject st.db project_pk = some p →
      findSyncLog st.db sync_log_pk = none →
      sync_project c st project_pk sync_log_pk no_pull no_commit force =
        ({ st with logs := st.logs ++ [syncLogNotFoundMsg p.slug sync_log_pk] },
         Except.error (SyncError.doesNotExist (syncLogNotFoundMsg p.slug sync_log_pk)))) := by
  constructor
  · intro h
    unfold sync_project
    rw [h]
  · intro p hp hsl
    unfold sync_project
    rw [hp, hsl]

/-- C6 witness: invoking `sync_project` with a project pk absent from the
fixture database yields exactly the logged not-found failure. -/
theorem C6_witness :
    findProject (exState exDB_clean).db 99 = none ∧
    sync_project cTrivial (exState exDB_clean) 99 5 false false false =
      ({ exState exDB_clean with
          logs := (exState exDB_clean).logs ++ [projectNotFoundMsg 99] },
       Except.error (SyncError.doesNotExist (projectNotFoundMsg 99))) :=
  ⟨by decide,
   (C6_not_found_aborts cTrivial (exState exDB_clean) 99 5 false false false).1 (by decide)⟩

/-- C10: with `no_pull` set, change detection is bypassed (`repos_changed` is
assumed true), so the skip path is unreachable: whatever the `force` flag and
the project's dirty flag, the run record is created non-skipped and never
marked skipped, the project-wide merge runs, and one worker per repository is
dispatched. -/
theorem C10_no_pull_never_skips (c : Collaborators) (st : SyncState)
    (project_pk sync_log_pk : Nat) (no_commit force : Bool) (p : Project)
    (sl : SyncLog) (db3 : DB)
    (hp : findProject st.db project_pk = some p)
    (hsl : findSyncLog st.db sync_log_pk = some sl)
    (hmerge : c.perform_sync_project p st.clock
        (createProjectSyncLog st.db sync_log_pk p.id st.clock) = db3) :
    sync_project c st project_pk sync_log_pk true no_commit force =
      ({ st with
          db := db3, clock := st.clock + 1,
          logs := (st.logs ++ [syncingMsg p.slug]) ++ [syncedResourcesMsg p.slug],
          calls := st.calls ++ [CallEvent.projectMerge],
          dispatched := st.dispatched ++
            (projectRepositories db3 p.id).map (fun repo =>
              { project_pk := project_pk, repo_pk := repo.pk,
                project_sync_log_pk := st.db.next_pk, now := st.clock,
                no_pull := true, no_commit := no_commit }) },
       Except.ok ()) ∧
    (createProjectSyncLog st.db sync_log_pk p.id st.clock).projectSyncLogs =
      st.db.projectSyncLogs ++
        [{ pk := st.db.next_pk, sync_log := sync_log_pk, project := p.id,
           start_time := st.clock, skipped := false, skipped_end_time := none }] := by
  constructor
  · unfold sync_project
    rw [hp, hsl]
    simp only [if_true, Bool.not_true, Bool.and_false, Bool.false_and,
      Bool.false_eq_true, if_false, hmerge]
  · rfl

/-- C10 witness: a `no_pull` invocation on the clean fixture database (false
dirty flag, `force` unset) still merges and dispatches, and is not skipped. -/
theorem C10_witness :
    sync_project cTrivial (exState exDB_clean) 1 5 true true false =
      ({ exState exDB_clean with
          db := createProjectSyncLog (exState exDB_clean).db 5 exProject.id
            (exState exDB_clean).clock,
          clock := (exState exDB_clean).clock + 1,
          logs := ((exState exDB_clean).logs ++ [syncingMsg exProject.slug]) ++
            [syncedResourcesMsg exProject.slug],
          calls := (exState exDB_clean).calls ++ [CallEvent.projectMerge],
          dispatched := (exState exDB_clean).dispatched ++
            (projectRepositories (createProjectSyncLog (exState exDB_clean).db 5
              exProject.id (exState exDB_clean).clock) exProject.id).map (fun repo =>
              { project_pk := 1, repo_pk := repo.pk,
                project_sync_log_pk := (exState exDB_clean).db.next_pk,
                now := (exState exDB_clean).clock,
                no_pull := true, no_commit := true }) },
       Except.ok ()) :=
  (C10_no_pull_never_skips cTrivial (exState exDB_clean) 1 5 true false exProject
    exSyncLog
    (createProjectSyncLog (exState exDB_clean).db 5 exProject.id
      (exState exDB_clean).clock)
    (by decide) (by decide) rfl).1

/-- C8: a non-skipped coordinator run captures `now` once (the clock value at
the start) and dispatches exactly one worker per repository of the project,
every dispatch carrying that same `now` and the same `no_pull`/`no_commit`
flags, while merely appending the dispatches to the queue (fire-and-forget:
no worker runs as part of the coordinator). -/
theorem C8_fanout_single_timestamp (c : Collaborators) (st : SyncState)
    (project_pk sync_log_pk : Nat) (no_pull no_commit force : Bool) (p : Project)
    (sl : SyncLog) (rc : Bool) (db3 : DB)
    (hp : findProject st.db project_pk = some p)
    (hsl : findSyncLog st.db sync_log_pk = some sl)
    (hrc : (if no_pull then true else (c.pull_changes p st.wt).2) = rc)
    (hskip : (!force && !rc &&
      !(needs_sync (createProjectSyncLog st.db sync_log_pk p.id st.clock) p)) = false)
    (hmerge : c.perform_sync_project p st.clock
        (createProjectSyncLog st.db sync_log_pk p.id st.clock) = db3) :
    sync_project c st project_pk sync_log_pk no_pull no_commit force =
      ({ st with
          db := db3,
          wt := (if no_pull then st.wt else (c.pull_changes p st.wt).1),
          clock := st.clock + 1,
          logs := (st.logs ++ [syncingMsg p.slug]) ++ [syncedResourcesMsg p.slug],
          calls := (if no_pull then st.calls else st.calls ++ [CallEvent.pull]) ++
            [CallEvent.projectMerge],
          dispatched := st.dispatched ++
            (projectRepositories db3 p.id).map (fun repo =>
              { project_pk := project_pk, repo_pk := repo.pk,
                project_sync_log_pk := st.db.next_pk, now := st.clock,
                no_pull := no_pull, no_commit := no_commit }) },
       Except.ok ()) := by
  unfold sync_project
  rw [hp, hsl]
  simp only [hrc, hskip, Bool.false_eq_true, if_false, hmerge]

/-- C8 witness: on the clean fixture database with a pull that reports
changes, the coordinator dispatches one worker for the single repository,
carrying the captured clock value 100 and the given flags. -/
theorem C8_witness :
    sync_project cChangedPull (exState exDB_clean) 1 5 false true false =
      ({ exState exDB_clean with
          db := createProjectSyncLog (exState exDB_clean).db 5 exProject.id
            (exState exDB_clean).clock,
          wt := (if false then (exState exDB_clean).wt
            else (cChangedPull.pull_changes exProject (exState exDB_clean).wt).1),
          clock := (exState exDB_clean).clock + 1,
          logs := ((exState exDB_clean).logs ++ [syncingMsg exProject.slug]) ++
            [syncedResourcesMsg exProject.slug],
          calls := (if false then (exState exDB_clean).calls
            else (exState exDB_clean).calls ++ [CallEvent.pull]) ++
            [CallEvent.projectMerge],
          dispatched := (exState exDB_clean).dispatched ++
            (projectRepositories (createProjectSyncLog (exState exDB_clean).db 5
              exProject.id (exState exDB_clean).clock) exProject.id).map (fun repo =>
              { project_pk := 1, repo_pk := repo.pk,
                project_sync_log_pk := (exState exDB_clean).db.next_pk,
                now := (exState exDB_clean).clock,
                no_pull := false, no_commit := true }) },
       Except.ok ()) :=
  C8_fanout_single_timestamp cChangedPull (exState exDB_clean) 1 5 false true false
    exProject exSyncLog true
    (createProjectSyncLog (exState exDB_clean).db 5 exProject.id
      (exState exDB_clean).clock)
    (by decide) (by decide) rfl (by decide) rfl

/-- C3: with `force` unset, a pull that reports no changes and changes
nothing, and a false dirty flag, the coordinator records the run as skipped
(with a skip end timestamp), dispatches no worker, performs no merge (the call
trace grows only by the pull) and mutates no translation, dirty marker,
project row or working tree; a second invocation under the same conditions
does the same again. -/
theorem C3_skip_idempotent (c : Collaborators) (st : SyncState)
    (project_pk sync_log_pk : Nat) (no_commit : Bool) (p : Project) (sl : SyncLog)
    (hp : findProject st.db project_pk = some p)
    (hsl : findSyncLog st.db sync_log_pk = some sl)
    (hns : needs_sync st.db p = false)
    (hpull : ∀ w, c.pull_changes p w = (w, false)) :
    sync_project c st project_pk sync_log_pk false no_commit false =
      (skip_outcome st sync_log_pk p, Except.ok ()) ∧
    sync_project c (skip_outcome st sync_log_pk p) project_pk sync_log_pk false
        no_commit false =
      (skip_outcome (skip_outcome st sync_log_pk p) sync_log_pk p, Except.ok ()) ∧
    (skip_outcome st sync_log_pk p).db.translations = st.db.translations ∧
    (skip_outcome st sync_log_pk p).db.changedEntityLocales =
      st.db.changedEntityLocales ∧
    (skip_outcome st sync_log_pk p).db.projects = st.db.projects ∧
    (skip_outcome st sync_log_pk p).wt = st.wt ∧
    (skip_outcome st sync_log_pk p).dispatched = st.dispatched ∧
    (skip_outcome st sync_log_pk p).calls = st.calls ++ [CallEvent.pull] ∧
    (∃ r ∈ (skip_outcome st sync_log_pk p).db.projectSyncLogs,
      r.pk = st.db.next_pk ∧ r.skipped = true ∧
        r.skipped_end_time = some (st.clock + 1)) := by
  refine ⟨sync_project_skip c st project_pk sync_log_pk no_commit p sl hp hsl hns
      (hpull st.wt),
    sync_project_skip c (skip_outcome st sync_log_pk p) project_pk sync_log_pk
      no_commit p sl hp hsl hns (hpull st.wt),
    rfl, rfl, rfl, rfl, rfl, rfl, ?_⟩
  refine ⟨{
      pk := st.db.next_pk, sync_log := sync_log_pk, project := p.id,
      start_time := st.clock, skipped := true,
      skipped_end_time := some (st.clock + 1) }, ?_, rfl, rfl, rfl⟩
  show _ ∈ (markPSLSkipped (createProjectSyncLog st.db sync_log_pk p.id st.clock)
    st.db.next_pk (st.clock + 1)).projectSyncLogs
  apply List.mem_map.mpr
  refine ⟨{
      pk := st.db.next_pk, sync_log := sync_log_pk, project := p.id,
      start_time := st.clock, skipped := false, skipped_end_time := none }, ?_, ?_⟩
  · exact List.mem_append_right _ (List.mem_singleton.mpr rfl)
  · simp

/-- C3 witness: two consecutive skip invocations on the clean fixture
database. -/
theorem C3_witness :
    sync_project cTrivial (exState exDB_clean) 1 5 false true false =
      (skip_outcome (exState exDB_clean) 5 exProject, Except.ok ()) ∧
    (skip_outcome (exState exDB_clean) 5 exProject).dispatched =
      (exState exDB_clean).dispatched :=
  ⟨(C3_skip_idempotent cTrivial (exState exDB_clean) 1 5 true exProject exSyncLog
      (by decide) (by decide) (by decide) (fun w => rfl)).1,
   (C3_skip_idempotent cTrivial (exState exDB_clean) 1 5 true exProject exSyncLog
      (by decide) (by decide) (by decide) (fun w => rfl)).2.2.2.2.2.2.1⟩

/-- C2: if the write-back raises `CommitToRepositoryException` for the first
locale of a repository run, the whole invocation equals the invocation that
skips that locale entirely apart from one warning log line: the locale's
database candidate (changeset edits, marker deletions, flag clear, demotions)
is discarded — the loop continues on the remaining locales from the
pre-transaction database and working tree, whose own transactions then commit
or fail independently. -/
theorem C2_commit_error_rolls_back_and_continues (c : Collaborators)
    (st : SyncState) (project_pk repo_pk project_sync_log_pk : Nat) (now : Int)
    (no_pull no_commit : Bool) (p : Project) (repo : Repository)
    (psl : ProjectSyncLog) (A : Locale) (rest : List Locale) (msg : String)
    (hp : findProject st.db project_pk = some p)
    (hr : findRepository st.db repo_pk = some repo)
    (hpsl : findProjectSyncLog st.db project_sync_log_pk = some psl)
    (hloc : repo.locales = A :: rest)
    (hA : locale_iteration c p { project := p, locales := A :: rest } now no_commit A
        (createRepositorySyncLog st.db psl.pk repo.pk st.clock)
        (if no_pull then st.wt else (c.pull_changes p st.wt).1) =
      Except.error (SyncError.commitToRepository msg)) :
    sync_project_repo c st project_pk repo_pk project_sync_log_pk now no_pull
        no_commit =
      finish_repo_sync st st.db.next_pk (st.clock + 1)
        (if no_pull then st.calls else st.calls ++ [CallEvent.pull])
        p.slug (joinLocaleCodes (A :: rest))
        (sync_repo_locales c p { project := p, locales := A :: rest } now no_commit
          rest (createRepositorySyncLog st.db psl.pk repo.pk st.clock)
          (if no_pull then st.wt else (c.pull_changes p st.wt).1)
          [commitFailWarnMsg A.code p.slug msg]) := by
  unfold sync_project_repo
  rw [hp, hr, hpsl]
  simp only [hloc, List.length_cons]
  rw [if_neg (by omega)]
  simp only [sync_repo_locales, hA, List.nil_append]

/-- C2 witness: on the two-locale fixture with a write-back that fails for
locale 1 only, the worker run reduces to the run over the remaining locale
with the warning logged. -/
theorem C2_witness :
    sync_project_repo cCommitFailA (exState exDB_two) 1 2 3 100 true false =
      finish_repo_sync (exState exDB_two) (exState exDB_two).db.next_pk
        ((exState exDB_two).clock + 1)
        (if true then (exState exDB_two).calls
         else (exState exDB_two).calls ++ [CallEvent.pull])
        exProjectDirty.slug (joinLocaleCodes (exLocaleA :: [exLocaleB]))
        (sync_repo_locales cCommitFailA exProjectDirty
          { project := exProjectDirty, locales := exLocaleA :: [exLocaleB] } 100 false
          [exLocaleB]
          (createRepositorySyncLog (exState exDB_two).db exPSL.pk exRepo.pk
            (exState exDB_two).clock)
          (if true then (exState exDB_two).wt
           else (cCommitFailA.pull_changes exProjectDirty (exState exDB_two).wt).1)
          [commitFailWarnMsg exLocaleA.code exProjectDirty.slug "push failed"]) :=
  C2_commit_error_rolls_back_and_continues cCommitFailA (exState exDB_two) 1 2 3 100
    true false exProjectDirty exRepo exPSL exLocaleA [exLocaleB] "push failed"
    (by decide) (by decide) (by decide) (by decide) rfl

/-- C7: an error other than `CommitToRepositoryException` during a locale's
processing is not caught: the invocation fails with that very error, the
locale's transaction rolls back (the database keeps only the freshly created
repository run record), no further locale is processed, and the repository
run record's end time is never set (it was created with `end_time = none` and
no end-time write happens). -/
theorem C7_unclassified_error_propagates (c : Collaborators) (st : SyncState)
    (project_pk repo_pk project_sync_log_pk : Nat) (now : Int)
    (no_pull no_commit : Bool) (p : Project) (repo : Repository)
    (psl : ProjectSyncLog) (A : Locale) (rest : List Locale) (e : SyncError)
    (hp : findProject st.db project_pk = some p)
    (hr : findRepository st.db repo_pk = some repo)
    (hpsl : findProjectSyncLog st.db project_sync_log_pk = some psl)
    (hloc : repo.locales = A :: rest)
    (hne : ∀ m, e ≠ SyncError.commitToRepository m)
    (hA : locale_iteration c p { project := p, locales := A :: rest } now no_commit A
        (createRepositorySyncLog st.db psl.pk repo.pk st.clock)
        (if no_pull then st.wt else (c.pull_changes p st.wt).1) =
      Except.error e) :
    sync_project_repo c st project_pk repo_pk project_sync_log_pk now no_pull
        no_commit =
      ({ st with
          db := createRepositorySyncLog st.db psl.pk repo.pk st.clock,
          wt := (if no_pull then st.wt else (c.pull_changes p st.wt).1),
          clock := st.clock + 1,
          calls := (if no_pull then st.calls else st.calls ++ [CallEvent.pull]) },
       Except.error e) ∧
    (createRepositorySyncLog st.db psl.pk repo.pk st.clock).repositorySyncLogs =
      st.db.repositorySyncLogs ++
        [{ pk := st.db.next_pk, project_sync_log := psl.pk, repository := repo.pk,
           start_time := st.clock, end_time := none }] := by
  constructor
  · unfold sync_project_repo
    rw [hp, hr, hpsl]
    simp only [hloc, List.length_cons]
    rw [if_neg (by omega)]
    cases e with
    | commitToRepository m => exact absurd rfl (hne m)
    | doesNotExist m =>
      simp only [sync_repo_locales, hA]
      simp [finish_repo_sync]
    | other m =>
      simp only [sync_repo_locales, hA]
      simp [finish_repo_sync]
  · rfl

/-- C7 witness: a statistics failure on the first locale of the two-locale
fixture aborts the run with that error and leaves the repository run record
without an end time. -/
theorem C7_witness :
    sync_project_repo cStatsBoom (exState exDB_two) 1 2 3 100 true true =
      ({ exState exDB_two with
          db := createRepositorySyncLog (exState exDB_two).db exPSL.pk exRepo.pk
            (exState exDB_two).clock,
          wt := (if true then (exState exDB_two).wt
            else (cStatsBoom.pull_changes exProjectDirty (exState exDB_two).wt).1),
          clock := (exState exDB_two).clock + 1,
          calls := (if true then (exState exDB_two).calls
            else (exState exDB_two).calls ++ [CallEvent.pull]) },
       Except.error (SyncError.other "boom")) :=
  (C7_unclassified_error_propagates cStatsBoom (exState exDB_two) 1 2 3 100 true true
    exProjectDirty exRepo exPSL exLocaleA [exLocaleB] (SyncError.other "boom")
    (by decide) (by decide) (by decide) (by decide)
    (fun m h => SyncError.noConfusion h) rfl).1

/-- C4: (1) after a successful locale iteration no dirty marker of the project
and locale timestamped at or before `now` remains; (2) the deletion step keeps
every marker timestamped after `now`; (3) deletion and flag clear live inside
the per-locale transaction: when the iteration fails, the loop continues (or
aborts) with the untouched pre-transaction database, so markers and flag are
restored. -/
theorem C4_dirty_marker_consumption :
    (∀ (c : Collaborators) (p : Project) (vcs : VCSProject) (now : Int) (nc : Bool)
      (l : Locale) (db : DB) (wt : Nat) (db' : DB) (wt' : Nat),
      locale_iteration c p vcs now nc l db wt = Except.ok (db', wt') →
      ∀ m ∈ db'.changedEntityLocales,
        ¬(entityProjectId db' m.entity_id = some p.id ∧ m.locale_id = l.id ∧
          m.when ≤ now)) ∧
    (∀ (db : DB) (P L : Nat) (now : Int), ∀ m ∈ db.changedEntityLocales,
      now < m.when →
      m ∈ (deleteChangedEntityLocales db P L now).changedEntityLocales) ∧
    (∀ (c : Collaborators) (p : Project) (vcs : VCSProject) (now : Int) (nc : Bool)
      (l : Locale) (rest : List Locale) (db : DB) (wt : Nat) (warns : List String)
      (e : SyncError),
      locale_iteration c p vcs now nc l db wt = Except.error e →
      sync_repo_locales c p vcs now nc (l :: rest) db wt warns =
        match e with
        | SyncError.commitToRepository msg =>
          sync_repo_locales c p vcs now nc rest db wt
            (warns ++ [commitFailWarnMsg l.code p.slug msg])
        | _ => (db, wt, warns, Except.error e)) := by
  refine ⟨?_, ?_, ?_⟩
  · intro c p vcs now nc l db wt db' wt' h m hm
    rcases locale_iteration_ok_shape h with ⟨mid, rfl⟩
    exact deleteCEL_complete mid p.id l.id now m hm
  · intro db P L now m hm hlate
    exact deleteCEL_preserves_late db P L now m hm hlate
  · intro c p vcs now nc l rest db wt warns e h
    cases e <;> simp only [sync_repo_locales, h]

/-- C4 witness: on the fixture with markers at 50 and 150 and reference time
100, the late marker survives the deletion step, and after a successful
locale-1 iteration the surviving late marker indeed violates none of the
deletion conditions. -/
theorem C4_witness :
    exMarkerLate ∈ (deleteChangedEntityLocales exDB_two 1 1 100).changedEntityLocales ∧
    ¬(entityProjectId
        (duplicate_approval_cleanup
          (clearHasChanged
            (deleteChangedEntityLocales exDB_two exProjectDirty.id exLocaleA.id 100)
            exProjectDirty.id)
          exProjectDirty.id exLocaleA.id) exMarkerLate.entity_id =
        some exProjectDirty.id ∧
      exMarkerLate.locale_id = exLocaleA.id ∧ exMarkerLate.when ≤ 100) :=
  ⟨C4_dirty_marker_consumption.2.1 exDB_two 1 1 100 exMarkerLate (by decide)
    (by decide),
   C4_dirty_marker_consumption.1 cTrivial exProjectDirty
    { project := exProjectDirty, locales := [exLocaleA] } 100 true exLocaleA exDB_two
    0
    (duplicate_approval_cleanup
      (clearHasChanged
        (deleteChangedEntityLocales exDB_two exProjectDirty.id exLocaleA.id 100)
        exProjectDirty.id)
      exProjectDirty.id exLocaleA.id)
    0 rfl exMarkerLate (by decide)⟩

/-- C5 (amended): a committed per-locale transaction clears the project's
dirty flag together with — and only together with — the deletion of all dirty
markers of that project *and locale* timestamped at or before `now`; markers
of other locales of the project may survive the clear. -/
theorem C5_flag_clear_scope_amended (c : Collaborators) (p : Project)
    (vcs : VCSProject) (now : Int) (nc : Bool) (l : Locale) (db : DB) (wt : Nat)
    (db' : DB) (wt' : Nat)
    (h : locale_iteration c p vcs now nc l db wt = Except.ok (db', wt')) :
    (∀ q ∈ db'.projects, q.id = p.id → q.has_changed = false) ∧
    (∀ m ∈ db'.changedEntityLocales,
      ¬(entityProjectId db' m.entity_id = some p.id ∧ m.locale_id = l.id ∧
        m.when ≤ now)) := by
  rcases locale_iteration_ok_shape h with ⟨mid, rfl⟩
  constructor
  · intro q hq hid
    exact clearHasChanged_projects
      (deleteChangedEntityLocales mid p.id l.id now) p.id q hq hid
  · intro m hm
    exact deleteCEL_complete mid p.id l.id now m hm

/-- C5 counterexample: the claim as stated is false on the code.  Running the
worker over a repository covering only locale 1 on a database that also holds
a locale-2 marker timestamped 50 (before the reference time 100) succeeds,
clears the dirty flag, and yet leaves that marker in place: the flag becomes
false while a dirty marker of the project timestamped at or before the run's
reference time still exists. -/
theorem C5_counterexample :
    (sync_project_repo cTrivial (exState exDB_marker) 1 2 3 100 true true).2 =
      Except.ok () ∧
    (sync_project_repo cTrivial (exState exDB_marker) 1 2 3 100 true true).1.db.projects =
      [{ id := 1, slug := "firefox", has_changed := false }] ∧
    (sync_project_repo cTrivial (exState exDB_marker) 1 2 3 100 true
        true).1.db.changedEntityLocales = [exMarkerB] ∧
    entityProjectId
      (sync_project_repo cTrivial (exState exDB_marker) 1 2 3 100 true true).1.db
      exMarkerB.entity_id = some 1 ∧
    exMarkerB.when ≤ 100 :=
  ⟨rfl, rfl, rfl, rfl, by decide⟩

/-- C5 witness: on the locale-2-marker fixture the amended statement holds for
the concrete successful iteration: the cleared project row has a false flag. -/
theorem C5_witness :
    locale_iteration cTrivial exProjectDirty
        { project := exProjectDirty, locales := [exLocaleA] } 100 true exLocaleA
        exDB_marker 0 =
      Except.ok
        (duplicate_approval_cleanup
          (clearHasChanged
            (deleteChangedEntityLocales exDB_marker exProjectDirty.id exLocaleA.id
              100)
            exProjectDirty.id)
          exProjectDirty.id exLocaleA.id, 0) ∧
    ({ id := 1, slug := "firefox", has_changed := false } : Project).has_changed =
      false :=
  ⟨rfl,
   (C5_flag_clear_scope_amended cTrivial exProjectDirty
      { project := exProjectDirty, locales := [exLocaleA] } 100 true exLocaleA
      exDB_marker 0
      (duplicate_approval_cleanup
        (clearHasChanged
          (deleteChangedEntityLocales exDB_marker exProjectDirty.id exLocaleA.id 100)
          exProjectDirty.id)
        exProjectDirty.id exLocaleA.id)
      0 rfl).1
    { id := 1, slug := "firefox", has_changed := false } (by decide) rfl⟩

/-- C1 (amended): after a successful per-locale transaction, (1) any two
translations of that project and locale in the same (entity, plural-form)
group — absent plural forms grouped together — that still carry an approval
timestamp carry the *same* timestamp, which is therefore the group maximum,
so any translation remaining approved with a timestamp has the maximum
timestamp (ties may leave several rows approved); (2) a translation with no
approval timestamp is never demoted by the cleanup; (3) every translation of
the project and locale whose approval timestamp differs from its group
maximum is demoted (approval flag cleared and timestamp nulled). -/
theorem C1_duplicate_approval_amended :
    (∀ (c : Collaborators) (p : Project) (vcs : VCSProject) (now : Int) (nc : Bool)
      (l : Locale) (db : DB) (wt : Nat) (db' : DB) (wt' : Nat),
      locale_iteration c p vcs now nc l db wt = Except.ok (db', wt') →
      ∀ t1 ∈ db'.translations, ∀ t2 ∈ db'.translations,
        translationScope db' p.id l.id t1 = true →
        translationScope db' p.id l.id t2 = true →
        sameClaimGroup t1 t2 = true →
        ∀ d1 d2, t1.approved_date = some d1 → t2.approved_date = some d2 →
          d1 = d2) ∧
    (∀ (db : DB) (P L : Nat) (b : Translation), b.approved_date = none →
      cleanup_row db P L b = b) ∧
    (∀ (db : DB) (P L : Nat) (b : Translation) (d m : Int),
      b ∈ db.translations → translationScope db P L b = true →
      b.approved_date = some d → claimGroupMax db P L b = some m → d ≠ m →
      cleanup_row db P L b = { b with approved := false, approved_date := none }) := by
  refine ⟨?_, ?_, ?_⟩
  · intro c p vcs now nc l db wt db' wt' h t1 h1 t2 h2 hs1 hs2 hg d1 d2 hd1 hd2
    rcases locale_iteration_ok_shape h with ⟨mid, rfl⟩
    exact duplicate_approval_cleanup_dated_agree _ p.id l.id h1 h2 hs1 hs2 hg hd1 hd2
  · intro db P L b hb
    unfold cleanup_row
    rw [hb]
    simp [sqlNe]
  · intro db P L b d m hb hscope hd hmax hne
    have hsub : ∀ a, a ∈ (db.translations.filter (fun t =>
        translationScope db P L t && sameClaimGroup t b)).filterMap
          (fun t => t.approved_date) →
        a ∈ (db.translations.filter (fun t =>
          t.entity_id == b.entity_id && t.locale_id == b.locale_id &&
            sqlGroupPred b t)).filterMap (fun t => t.approved_date) := by
      intro a ha
      rcases List.mem_filterMap.mp ha with ⟨t, htmem, htd⟩
      rcases List.mem_filter.mp htmem with ⟨htl, htp⟩
      simp only [Bool.and_eq_true] at htp
      rcases htp with ⟨htscope, htg⟩
      have hbscope := hscope
      simp only [translationScope, Bool.and_eq_true, beq_iff_eq] at htscope hbscope
      simp only [sameClaimGroup, Bool.and_eq_true, beq_iff_eq] at htg
      apply List.mem_filterMap.mpr
      refine ⟨t, ?_, htd⟩
      apply List.mem_filter.mpr
      refine ⟨htl, ?_⟩
      simp only [Bool.and_eq_true, beq_iff_eq]
      exact ⟨⟨htg.1, htscope.1.trans hbscope.1.symm⟩, sqlGroupPred_of_eq htg.2⟩
    have hmax2 : optMax ((db.translations.filter (fun t =>
        translationScope db P L t && sameClaimGroup t b)).filterMap
          (fun t => t.approved_date)) = some m := hmax
    have hdmem : d ∈ (db.translations.filter (fun t =>
        translationScope db P L t && sameClaimGroup t b)).filterMap
          (fun t => t.approved_date) := by
      apply List.mem_filterMap.mpr
      refine ⟨b, ?_, hd⟩
      apply List.mem_filter.mpr
      exact ⟨hb, by simp [hscope, sameClaimGroup_self]⟩
    have hdm : d ≤ m := by
      rcases le_optMax hdmem with ⟨m0, hm0, hle⟩
      rw [hm0] at hmax2
      injection hmax2 with hmm
      rw [← hmm]
      exact hle
    rcases optMax_subset_le hsub hmax2 with ⟨m2, hm2, hmle⟩
    have hgm : sqlGroupMax db.translations b = some m2 := hm2
    have hdne2 : d ≠ m2 := by omega
    have hcond : (translationScope db P L b &&
        sqlNe b.approved_date (sqlGroupMax db.translations b)) = true := by
      rw [hscope, hd, hgm]
      simp [sqlNe, hdne2]
    unfold cleanup_row
    rw [if_pos hcond]

/-- C1 counterexample: the claim as stated is false on the code.  With two
translations of one (entity, locale, plural-form) group both approved at the
same timestamp, a successful worker run leaves *both* approved: the `UPDATE`
only demotes rows whose timestamp differs from the group maximum, so a tie
survives and "at most one Translation in the group is marked approved"
fails. -/
theorem C1_counterexample :
    (sync_project_repo cTrivial (exState exDB_tie) 1 2 3 100 true true).2 =
      Except.ok () ∧
    claim_at_most_one_approved
      (sync_project_repo cTrivial (exState exDB_tie) 1 2 3 100 true true).1.db 1 1 =
      false :=
  ⟨rfl, rfl⟩

/-- C1 witness: the amended statement applies to the concrete successful
iteration over the tie fixture — both surviving dated rows of the group carry
timestamp 5, the group maximum. -/
theorem C1_witness :
    locale_iteration cTrivial exProject
        { project := exProject, locales := [exLocaleA] } 100 true exLocaleA exDB_tie
        0 =
      Except.ok
        (duplicate_approval_cleanup
          (clearHasChanged
            (deleteChangedEntityLocales exDB_tie exProject.id exLocaleA.id 100)
            exProject.id)
          exProject.id exLocaleA.id, 0) ∧
    (5 : Int) = 5 :=
  ⟨rfl,
   C1_duplicate_approval_amended.1 cTrivial exProject
    { project := exProject, locales := [exLocaleA] } 100 true exLocaleA exDB_tie 0
    (duplicate_approval_cleanup
      (clearHasChanged
        (deleteChangedEntityLocales exDB_tie exProject.id exLocaleA.id 100)
        exProject.id)
      exProject.id exLocaleA.id)
    0 rfl exT1 (by decide) exT2 (by decide) (by decide) (by decide) (by decide) 5 5
    (by decide) (by decide)⟩

end Pontoon
